import Mathlib

/-!
Shallow embedding of the core of `src/streamlit_dashboard.py`:
the per-instrument quote builder (`fetch_market_data`), the risk scoring
engine (`compute_risk_signal`) and the pair trading engine
(`calculate_pair_trading_signals`).  Numeric values are modelled as
rationals; the Korean status strings of the source ("안정", "상승",
"하락", "오류") are modelled by the inductive `Status`
(stable, rising, falling, error), and each factor string appended by the
risk engine is modelled by a `Factor` record carrying the factor kind,
the numeric metric embedded in the message, and the score delta that the
source adds alongside the append.
-/

/-- Status of a quote; the source uses the strings "안정" (stable),
"상승" (rising), "하락" (falling) and "오류" (error). -/
inductive Status where
  | stable
  | rising
  | falling
  | error
deriving DecidableEq, Repr

/-- Risk level of the composite signal; the source uses "낮음" (low),
"중간" (medium) and "높음" (high). -/
inductive RiskLevel where
  | low
  | medium
  | high
deriving DecidableEq, Repr

/-- One constructor per factor message appended by `compute_risk_signal`,
in the source's wording. -/
inductive FactorKind where
  | spxPlunge      -- "S&P500 급락"
  | spxDecline     -- "S&P500 하락"
  | spxWeak        -- "S&P500 약세"
  | ndxPlunge      -- "나스닥100 급락"
  | ndxDecline     -- "나스닥100 하락"
  | ndxWeak        -- "나스닥100 약세"
  | divergenceHigh -- "S&P-나스닥 디버전스"
  | divergenceWide -- "지수 간 괴리 확대"
  | vixVeryHigh    -- "VIX 매우 높음"
  | vixHigh        -- "VIX 높음"
  | vixSomewhatHigh -- "VIX 다소 높음"
  | dxySurge       -- "달러지수 급등"
  | dxyRise        -- "달러지수 상승"
  | dollarVeryStrong -- "달러 매우 강세"
  | dollarStrong   -- "달러 강세"
  | krwSharpDropStrongDollar -- "달러 강세 시 원화 상대적 급락"
  | krwSoftStrongDollar      -- "달러 강세 시 원화 상대적 약세"
  | krwLagsWeakDollar        -- "달러 약세에도 원화 부진"
  | krwPlungeVsUsd -- "원화 급락 대비 달러"
  | krwWeakVsUsd   -- "원화 약세 대비 달러"
  | krwSoftVsUsd   -- "원화 하락 대비 달러"
  | krwSurgeVsUsd  -- "원화 급등 대비 달러"
  | krwStrongVsUsd -- "원화 강세 대비 달러"
  | jpyPlunge      -- "엔화 급락"
  | jpyWeak        -- "엔화 약세"
  | jpySurgeCarryUnwind -- "엔화 급등, 캐리 청산"
  | jpyStrong      -- "엔화 강세"
  | krwStructuralWeak -- "원화 구조적 약세"
  | jpyStrongVsKrw -- "원화 대비 엔화 강세"
  | yieldJump      -- "미10년물 급변"
  | yieldMove      -- "미10년물 변동 확대"
  | goldStrong     -- "금 강세"
  | goldRise       -- "금 상승"
  | silverStrong   -- "은 강세"
  | silverRise     -- "은 상승"
  | btcSurge       -- "BTC 급등"
  | btcRise        -- "BTC 상승"
deriving DecidableEq, Repr

/-- One entry of the risk signal's factor list: the message kind, the
metric value formatted into the message, and the score delta that the
source adds to `score` next to the corresponding `factors.append`. -/
structure Factor where
  kind : FactorKind
  value : ℚ
  delta : ℕ
deriving DecidableEq, Repr

/-- The dictionary built for each instrument by `fetch_market_data`. -/
structure Quote where
  id : String
  name : String
  ticker : String
  current_value : ℚ
  previous_value : ℚ
  change_pct : ℚ
  unit : String
  status : Status
  formatted_value : String
  positive_is_good : Bool
deriving DecidableEq, Repr

/-- The dictionary returned by `compute_risk_signal`. -/
structure RiskSignal where
  score : ℕ
  level : RiskLevel
  color : String
  emoji : String
  factors : List Factor
deriving DecidableEq, Repr

/-- The qualitative call of one pair signal, one constructor per signal
string used by `calculate_pair_trading_signals`. -/
inductive PairCall where
  | buySilverSellGold -- "🟢 은 매수 / 금 매도"
  | buyGoldSellSilver -- "🔴 금 매수 / 은 매도"
  | sellBondsBuySpx   -- "🔴 채권 매도 / S&P500 매수"
  | buyBondsSellSpx   -- "🟢 채권 매수 / S&P500 매도"
  | buyJpySellUsd     -- "🟢 엔화 매수 / 달러 매도"
  | buyUsdSellJpy     -- "🔴 달러 매수 / 엔화 매도"
  | sellNdxBuySpx     -- "🟢 나스닥 매도 / S&P 매수"
  | sellSpxBuyNdx     -- "🔴 S&P 매도 / 나스닥 매수"
  | neutral           -- "🟡 중립"
deriving DecidableEq, Repr

/-- One pair trading signal: the call, its colour, and the numeric basis
(the gold/silver ratio, the VIX level, the USD/JPY level, or the
NDX-SPX performance gap) that the source stores in the entry and embeds
in its description string. -/
structure PairSignal where
  signal : PairCall
  color : String
  basis : ℚ
deriving DecidableEq, Repr

/-- One entry of the source's `TICKER_MAP`. -/
structure TickerInfo where
  key : String
  symbol : String
  name : String
  ticker : String
deriving DecidableEq, Repr

/-- `TICKER_MAP` of the source, in its insertion order. -/
def TICKER_MAP : List TickerInfo :=
  [⟨"gold", "GC=F", "금 (Gold)", "XAU/USD"⟩,
   ⟨"silver", "SI=F", "은 (Silver)", "XAG/USD"⟩,
   ⟨"dxy", "DX-Y.NYB", "달러 지수 (DXY)", "DXY"⟩,
   ⟨"us10y", "^TNX", "미 10년물 채권", "US10Y"⟩,
   ⟨"btc", "BTC-USD", "비트코인", "BTC/USD"⟩,
   ⟨"krwjpy", "KRWJPY=X", "원-엔 환율", "KRW/JPY"⟩,
   ⟨"krwusd", "KRW=X", "원-달러 환율", "USD/KRW"⟩,
   ⟨"usdjpy", "JPY=X", "달러-엔 환율", "USD/JPY"⟩,
   ⟨"vix", "^VIX", "변동성 지수 (VIX)", "VIX"⟩,
   ⟨"spx", "^GSPC", "S&P 500", "S&P 500"⟩,
   ⟨"ndx", "^NDX", "나스닥 100", "NASDAQ 100"⟩]

/-- `get_unit` of the source. -/
def get_unit (symbol : String) : String :=
  if symbol = "^TNX" then "percentage"
  else if symbol = "DX-Y.NYB" ∨ symbol = "^SKEW" ∨ symbol = "^VIX" ∨ symbol = "^GSPC" then
    "points"
  else "currency"

/-- `format_value` of the source.  The source renders two decimal places
(and a thousands separator for currencies); the rendered precision is
purely presentational and no claim inspects it, so the exact rational is
kept in the string. -/
def format_value (value : ℚ) (unit : String) : String :=
  if unit = "percentage" then toString value ++ "%"
  else if unit = "points" then toString value
  else "$" ++ toString value

/-- Python's built-in `abs` on a number: the negation for a negative
argument, the argument itself otherwise.  (Agrees with the mathematical
absolute value, see `pabs_eq_abs`; spelled out so that terms evaluate by
kernel reduction.) -/
def pabs (x : ℚ) : ℚ := if x < 0 then -x else x

/-- `get_status_class` of the source (CSS class from a change rate). -/
def get_status_class (change_pct : ℚ) : String :=
  if pabs change_pct < 1 then "status-stable"
  else if 0 < change_pct then "status-rising"
  else "status-falling"

/-- The sentinel record appended by the `except` branch of
`fetch_market_data` for an instrument whose fetch failed. -/
def error_quote (key name ticker symbol : String) : Quote :=
  { id := key
    name := name
    ticker := ticker
    current_value := 0
    previous_value := 0
    change_pct := 0
    unit := get_unit symbol
    status := Status.error
    formatted_value := "N/A"
    positive_is_good := true }

/-- The dictionary appended by the success path of `fetch_market_data`,
given the computed current value, previous value and change rate. -/
def mk_quote (key name ticker symbol : String) (cur prev chg : ℚ) : Quote :=
  { id := key
    name := name
    ticker := ticker
    current_value := cur
    previous_value := prev
    change_pct := chg
    unit := get_unit symbol
    status := if pabs chg < 1 then Status.stable
              else if 0 < chg then Status.rising else Status.falling
    formatted_value := format_value cur (get_unit symbol)
    positive_is_good := !(symbol.startsWith "^") }

/-- The body of the `try` block of `fetch_market_data` for one
instrument, over the fetched close history (oldest first, mirroring
`hist['Close']`; `iloc[-1]` and `iloc[-2]` become `getD` at the last two
positions).  In Python, dividing by a zero previous close raises
`ZeroDivisionError`, which the surrounding handler converts to the
sentinel record; that raise is modelled as the `Except.error` outcome. -/
def try_build (key name ticker symbol : String) (hist : List ℚ) : Except Unit Quote :=
  if 2 ≤ hist.length then
    let current_price := hist.getD (hist.length - 1) 0
    let previous_price := hist.getD (hist.length - 2) 0
    if previous_price = 0 then Except.error ()
    else
      Except.ok (mk_quote key name ticker symbol current_price previous_price
        ((current_price - previous_price) / previous_price * 100))
  else
    let current_price := if hist.isEmpty then 0 else hist.getD (hist.length - 1) 0
    Except.ok (mk_quote key name ticker symbol current_price current_price 0)

/-- One loop iteration of `fetch_market_data`: the fetch outcome for the
instrument is either a raised error or a close history; any raise inside
the `try` block (fetch failure or zero-division) yields the sentinel. -/
def build_quote (key name ticker symbol : String)
    (fetched : Except Unit (List ℚ)) : Quote :=
  match fetched with
  | Except.error _ => error_quote key name ticker symbol
  | Except.ok hist =>
    match try_build key name ticker symbol hist with
    | Except.error _ => error_quote key name ticker symbol
    | Except.ok q => q

/-- `fetch_market_data` of the source, abstracted over the per-symbol
fetch outcomes: one quote per `TICKER_MAP` entry, in catalog order. -/
def fetch_market_data (results : String → Except Unit (List ℚ)) : List Quote :=
  TICKER_MAP.map fun info =>
    build_quote info.key info.name info.ticker info.symbol (results info.symbol)

/-- `get_item` of the source: first list entry with the given id. -/
def get_item (data : List Quote) (key : String) : Option Quote :=
  match data with
  | [] => none
  | item :: rest => if item.id = key then some item else get_item rest key

/-- S&P 500 rule of `compute_risk_signal`.  A present quote is a
non-empty Python dict, hence truthy, so `if spx:` tests presence only. -/
def spxRule : Option Quote → ℕ × List Factor
  | none => (0, [])
  | some q =>
    if q.change_pct < -3 then (3, [⟨FactorKind.spxPlunge, q.change_pct, 3⟩])
    else if q.change_pct < -1.5 then (2, [⟨FactorKind.spxDecline, q.change_pct, 2⟩])
    else if q.change_pct < -0.5 then (1, [⟨FactorKind.spxWeak, q.change_pct, 1⟩])
    else (0, [])

/-- NASDAQ 100 rule of `compute_risk_signal`. -/
def ndxRule : Option Quote → ℕ × List Factor
  | none => (0, [])
  | some q =>
    if q.change_pct < -3 then (3, [⟨FactorKind.ndxPlunge, q.change_pct, 3⟩])
    else if q.change_pct < -1.5 then (2, [⟨FactorKind.ndxDecline, q.change_pct, 2⟩])
    else if q.change_pct < -0.5 then (1, [⟨FactorKind.ndxWeak, q.change_pct, 1⟩])
    else (0, [])

/-- SPX/NDX divergence rule of `compute_risk_signal`. -/
def divergenceRule : Option Quote → Option Quote → ℕ × List Factor
  | some spx, some ndx =>
    let divergence := pabs (spx.change_pct - ndx.change_pct)
    if 2 < divergence then (2, [⟨FactorKind.divergenceHigh, divergence, 2⟩])
    else if 1 < divergence then (1, [⟨FactorKind.divergenceWide, divergence, 1⟩])
    else (0, [])
  | _, _ => (0, [])

/-- VIX rule of `compute_risk_signal`.  The source guard is
`if vix and vix['current_value']:`, so a zero (falsy) level skips the
rule. -/
def vixRule : Option Quote → ℕ × List Factor
  | none => (0, [])
  | some q =>
    if q.current_value = 0 then (0, [])
    else if 35 < q.current_value then (3, [⟨FactorKind.vixVeryHigh, q.current_value, 3⟩])
    else if 25 < q.current_value then (2, [⟨FactorKind.vixHigh, q.current_value, 2⟩])
    else if 15 < q.current_value then (1, [⟨FactorKind.vixSomewhatHigh, q.current_value, 1⟩])
    else (0, [])

/-- Dollar index rule of `compute_risk_signal`: a change-rate ladder
followed by an absolute-level ladder, both inside one `if dxy:` block. -/
def dxyRule : Option Quote → ℕ × List Factor
  | none => (0, [])
  | some q =>
    let chgPart : ℕ × List Factor :=
      if 1 < q.change_pct then (2, [⟨FactorKind.dxySurge, q.change_pct, 2⟩])
      else if 0.5 < q.change_pct then (1, [⟨FactorKind.dxyRise, q.change_pct, 1⟩])
      else (0, [])
    let lvlPart : ℕ × List Factor :=
      if 110 < q.current_value then (2, [⟨FactorKind.dollarVeryStrong, q.current_value, 2⟩])
      else if 105 < q.current_value then (1, [⟨FactorKind.dollarStrong, q.current_value, 1⟩])
      else (0, [])
    (chgPart.1 + lvlPart.1, chgPart.2 ++ lvlPart.2)

/-- Cross-FX rule of `compute_risk_signal`: needs dxy, krwusd, usdjpy
and krwjpy all present (the krwusd and usdjpy change rates are read but
unused); a strong-dollar ladder followed by a weak-dollar check. -/
def crossFxRule : Option Quote → Option Quote → Option Quote → Option Quote → ℕ × List Factor
  | some dxy, some _krwusd, some _usdjpy, some krwjpy =>
    let strongPart : ℕ × List Factor :=
      if 0.5 < dxy.change_pct ∧ krwjpy.change_pct < -1 then
        (2, [⟨FactorKind.krwSharpDropStrongDollar, krwjpy.change_pct, 2⟩])
      else if 0.3 < dxy.change_pct ∧ krwjpy.change_pct < -0.5 then
        (1, [⟨FactorKind.krwSoftStrongDollar, krwjpy.change_pct, 1⟩])
      else (0, [])
    let weakPart : ℕ × List Factor :=
      if dxy.change_pct < -0.5 ∧ krwjpy.change_pct < -1 then
        (1, [⟨FactorKind.krwLagsWeakDollar, krwjpy.change_pct, 1⟩])
      else (0, [])
    (strongPart.1 + weakPart.1, strongPart.2 ++ weakPart.2)
  | _, _, _, _ => (0, [])

/-- KRW/USD rule of `compute_risk_signal`. -/
def krwusdRule : Option Quote → ℕ × List Factor
  | none => (0, [])
  | some q =>
    if 2 < q.change_pct then (3, [⟨FactorKind.krwPlungeVsUsd, q.change_pct, 3⟩])
    else if 1 < q.change_pct then (2, [⟨FactorKind.krwWeakVsUsd, q.change_pct, 2⟩])
    else if 0.5 < q.change_pct then (1, [⟨FactorKind.krwSoftVsUsd, q.change_pct, 1⟩])
    else if q.change_pct < -2 then (2, [⟨FactorKind.krwSurgeVsUsd, q.change_pct, 2⟩])
    else if q.change_pct < -1 then (1, [⟨FactorKind.krwStrongVsUsd, q.change_pct, 1⟩])
    else (0, [])

/-- USD/JPY rule of `compute_risk_signal`. -/
def usdjpyRule : Option Quote → ℕ × List Factor
  | none => (0, [])
  | some q =>
    if 2 < q.change_pct then (2, [⟨FactorKind.jpyPlunge, q.change_pct, 2⟩])
    else if 1 < q.change_pct then (1, [⟨FactorKind.jpyWeak, q.change_pct, 1⟩])
    else if q.change_pct < -2 then (3, [⟨FactorKind.jpySurgeCarryUnwind, q.change_pct, 3⟩])
    else if q.change_pct < -1 then (2, [⟨FactorKind.jpyStrong, q.change_pct, 2⟩])
    else (0, [])

/-- KRW/JPY standalone rule of `compute_risk_signal`. -/
def krwjpyRule : Option Quote → ℕ × List Factor
  | none => (0, [])
  | some q =>
    if q.change_pct < -2 then (2, [⟨FactorKind.krwStructuralWeak, q.change_pct, 2⟩])
    else if q.change_pct < -1 then (1, [⟨FactorKind.jpyStrongVsKrw, q.change_pct, 1⟩])
    else (0, [])

/-- US 10Y rule of `compute_risk_signal` (the source additionally checks
the values are not None; in this embedding they are always numeric). -/
def us10yRule : Option Quote → ℕ × List Factor
  | none => (0, [])
  | some q =>
    let move_bp := pabs (q.current_value - q.previous_value)
    if 0.2 < move_bp then (2, [⟨FactorKind.yieldJump, move_bp, 2⟩])
    else if 0.1 < move_bp then (1, [⟨FactorKind.yieldMove, move_bp, 1⟩])
    else (0, [])

/-- Gold rule of `compute_risk_signal`. -/
def goldRule : Option Quote → ℕ × List Factor
  | none => (0, [])
  | some q =>
    if 2 < q.change_pct then (2, [⟨FactorKind.goldStrong, q.change_pct, 2⟩])
    else if 1 < q.change_pct then (1, [⟨FactorKind.goldRise, q.change_pct, 1⟩])
    else (0, [])

/-- Silver rule of `compute_risk_signal`. -/
def silverRule : Option Quote → ℕ × List Factor
  | none => (0, [])
  | some q =>
    if 3 < q.change_pct then (2, [⟨FactorKind.silverStrong, q.change_pct, 2⟩])
    else if 1.5 < q.change_pct then (1, [⟨FactorKind.silverRise, q.change_pct, 1⟩])
    else (0, [])

/-- Bitcoin rule of `compute_risk_signal`. -/
def btcRule : Option Quote → ℕ × List Factor
  | none => (0, [])
  | some q =>
    if 6 < q.change_pct then (2, [⟨FactorKind.btcSurge, q.change_pct, 2⟩])
    else if 3 < q.change_pct then (1, [⟨FactorKind.btcRise, q.change_pct, 1⟩])
    else (0, [])

/-- Score-to-signal mapping at the end of `compute_risk_signal`:
level, colour and emoji. -/
def risk_meta (score : ℕ) : RiskLevel × String × String :=
  if 6 ≤ score then (RiskLevel.high, "#dc3545", "🔴")
  else if 3 ≤ score then (RiskLevel.medium, "#ffc107", "🟡")
  else (RiskLevel.low, "#28a745", "🟢")

/-- The (score delta, appended factors) contribution of every rule of
`compute_risk_signal`, in the source's evaluation order. -/
def rule_results (market_data : List Quote) : List (ℕ × List Factor) :=
  [spxRule (get_item market_data "spx"),
   ndxRule (get_item market_data "ndx"),
   divergenceRule (get_item market_data "spx") (get_item market_data "ndx"),
   vixRule (get_item market_data "vix"),
   dxyRule (get_item market_data "dxy"),
   crossFxRule (get_item market_data "dxy") (get_item market_data "krwusd")
     (get_item market_data "usdjpy") (get_item market_data "krwjpy"),
   krwusdRule (get_item market_data "krwusd"),
   usdjpyRule (get_item market_data "usdjpy"),
   krwjpyRule (get_item market_data "krwjpy"),
   us10yRule (get_item market_data "us10y"),
   goldRule (get_item market_data "gold"),
   silverRule (get_item market_data "silver"),
   btcRule (get_item market_data "btc")]

/-- `compute_risk_signal` of the source: the score is the running sum of
the per-rule increments and the factor list is the concatenation of the
per-rule appends, in rule order. -/
def compute_risk_signal (market_data : List Quote) : RiskSignal :=
  let rs := rule_results market_data
  let score := (rs.map Prod.fst).sum
  let meta := risk_meta score
  { score := score
    level := meta.1
    color := meta.2.1
    emoji := meta.2.2
    factors := (rs.map Prod.snd).flatten }

/-- Gold-silver block of `calculate_pair_trading_signals`; the
`signals['gold_silver']` assignment sits after the threshold branch, so
the entry is present whenever both quotes are (truthy dicts). -/
def gold_silver_block : Option Quote → Option Quote → List (String × PairSignal)
  | some gold, some silver =>
    let ratio := if 0 < silver.current_value
      then gold.current_value / silver.current_value else 0
    let sig : PairSignal :=
      if 85 < ratio then ⟨PairCall.buySilverSellGold, "#28a745", ratio⟩
      else if ratio < 65 then ⟨PairCall.buyGoldSellSilver, "#dc3545", ratio⟩
      else ⟨PairCall.neutral, "#ffc107", ratio⟩
    [("gold_silver", sig)]
  | _, _ => []

/-- VIX bonds-stocks block of `calculate_pair_trading_signals` (the
source also fetches us10y and spx here but never uses or requires
them). -/
def vix_bonds_stocks_block : Option Quote → List (String × PairSignal)
  | some vix =>
    let sig : PairSignal :=
      if 25 < vix.current_value then ⟨PairCall.sellBondsBuySpx, "#dc3545", vix.current_value⟩
      else if vix.current_value < 15 then ⟨PairCall.buyBondsSellSpx, "#28a745", vix.current_value⟩
      else ⟨PairCall.neutral, "#ffc107", vix.current_value⟩
    [("vix_bonds_stocks", sig)]
  | none => []

/-- USD/JPY carry block of `calculate_pair_trading_signals`. -/
def usd_jpy_block : Option Quote → List (String × PairSignal)
  | some usdjpy =>
    let v := usdjpy.current_value
    let c := usdjpy.change_pct
    let sig : PairSignal :=
      if 155 < v ∨ (150 < v ∧ 1.5 < c) then ⟨PairCall.buyJpySellUsd, "#28a745", v⟩
      else if v < 140 ∨ (v < 145 ∧ c < -1.5) then ⟨PairCall.buyUsdSellJpy, "#dc3545", v⟩
      else ⟨PairCall.neutral, "#ffc107", v⟩
    [("usd_jpy", sig)]
  | none => []

/-- SPX-NDX block of `calculate_pair_trading_signals`. -/
def spx_ndx_block : Option Quote → Option Quote → List (String × PairSignal)
  | some spx, some ndx =>
    let gap := ndx.change_pct - spx.change_pct
    let sig : PairSignal :=
      if 1.5 < gap then ⟨PairCall.sellNdxBuySpx, "#28a745", gap⟩
      else if gap < -1.5 then ⟨PairCall.sellSpxBuyNdx, "#dc3545", gap⟩
      else ⟨PairCall.neutral, "#ffc107", gap⟩
    [("spx_ndx", sig)]
  | _, _ => []

/-- `calculate_pair_trading_signals` of the source: a Python dict in
insertion order, modelled as an association list. -/
def calculate_pair_trading_signals (market_data : List Quote) : List (String × PairSignal) :=
  gold_silver_block (get_item market_data "gold") (get_item market_data "silver")
    ++ vix_bonds_stocks_block (get_item market_data "vix")
    ++ usd_jpy_block (get_item market_data "usdjpy")
    ++ spx_ndx_block (get_item market_data "spx") (get_item market_data "ndx")

/-- The all-zero fetch-failure sentinel shape (§3 of the spec): zero
values, zero change, error status. -/
def IsSentinel (q : Quote) : Prop :=
  q.current_value = 0 ∧ q.previous_value = 0 ∧ q.change_pct = 0 ∧ q.status = Status.error

instance (q : Quote) : Decidable (IsSentinel q) := by
  unfold IsSentinel; infer_instance

/-- Two quotes agreeing on every field the engines can read, differing
at most in `status`. -/
def EqExceptStatus (a b : Quote) : Prop :=
  a.id = b.id ∧ a.name = b.name ∧ a.ticker = b.ticker ∧
  a.current_value = b.current_value ∧ a.previous_value = b.previous_value ∧
  a.change_pct = b.change_pct ∧ a.unit = b.unit ∧
  a.formatted_value = b.formatted_value ∧ a.positive_is_good = b.positive_is_good

instance (a b : Quote) : Decidable (EqExceptStatus a b) := by
  unfold EqExceptStatus; infer_instance

/-- A minimal concrete quote for test inputs. -/
def testQuote (id : String) (cur prev chg : ℚ) : Quote :=
  { id := id
    name := id
    ticker := id
    current_value := cur
    previous_value := prev
    change_pct := chg
    unit := "points"
    status := Status.stable
    formatted_value := ""
    positive_is_good := true }

/-- A fetch outcome in which every symbol's fetch raises. -/
def all_error_fetch : String → Except Unit (List ℚ) := fun _ => Except.error ()

/-- The snapshot produced when every instrument's fetch fails. -/
def sentinel_data : List Quote := fetch_market_data all_error_fetch

/-- Every quote of the list is the all-zero fetch-failure sentinel. -/
def AllSentinel (data : List Quote) : Prop := ∀ q ∈ data, IsSentinel q

instance (data : List Quote) : Decidable (AllSentinel data) := by
  unfold AllSentinel; infer_instance

/-- The sentinel record for the gold instrument. -/
def sentinel_gold : Quote := error_quote "gold" "금 (Gold)" "XAU/USD" "GC=F"

/-- The sentinel record for the silver instrument. -/
def sentinel_silver : Quote := error_quote "silver" "은 (Silver)" "XAG/USD" "SI=F"

/-- Golden scenario 3 input: spx changing by -4.0%, ndx by -1.0%, every
other instrument absent. -/
def spx_ndx_decline_data : List Quote :=
  [testQuote "spx" 0 0 (-4), testQuote "ndx" 0 0 (-1)]

/-- An input whose only quote is spx at exactly -3.0% change. -/
def spx_minus3_data : List Quote := [testQuote "spx" 0 0 (-3)]

/-- An input whose only quote is the fear gauge at level exactly 25. -/
def vix_25_data : List Quote := [testQuote "vix" 25 25 0]

/-- An input with a non-error gold quote and a non-error silver quote
whose current value is zero. -/
def zero_silver_data : List Quote :=
  [testQuote "gold" 100 100 0, testQuote "silver" 0 0 0]

/-- A one-quote list holding the gold sentinel. -/
def status_diff_left : List Quote := [sentinel_gold]

/-- The same list with only the status field changed. -/
def status_diff_right : List Quote := [{ sentinel_gold with status := Status.stable }]

/-- The Python `abs` model agrees with the absolute value. -/
theorem pabs_eq_abs (x : ℚ) : pabs x = |x| := by
  rw [pabs]; split_ifs with h
  · exact (abs_of_neg h).symm
  · exact (abs_of_nonneg (le_of_not_lt h)).symm

/-- The quote returned by `get_item` is an element of the input list. -/
theorem get_item_mem {data : List Quote} {k : String} {q : Quote}
    (h : get_item data k = some q) : q ∈ data := by
  induction data with
  | nil => simp [get_item] at h
  | cons a rest ih =>
    rw [get_item] at h
    by_cases ha : a.id = k
    · rw [if_pos ha] at h
      injection h with h2
      subst h2
      exact List.mem_cons_self _ _
    · rw [if_neg ha] at h
      exact List.mem_cons_of_mem a (ih h)

theorem spxRule_sum (o : Option Quote) :
    (spxRule o).1 = ((spxRule o).2.map Factor.delta).sum := by
  cases o with
  | none => rfl
  | some q => rw [spxRule]; split_ifs <;> rfl

theorem ndxRule_sum (o : Option Quote) :
    (ndxRule o).1 = ((ndxRule o).2.map Factor.delta).sum := by
  cases o with
  | none => rfl
  | some q => rw [ndxRule]; split_ifs <;> rfl

theorem divergenceRule_sum (o1 o2 : Option Quote) :
    (divergenceRule o1 o2).1 = ((divergenceRule o1 o2).2.map Factor.delta).sum := by
  cases o1 <;> cases o2 <;> try rfl
  rw [divergenceRule]; split_ifs <;> rfl

theorem vixRule_sum (o : Option Quote) :
    (vixRule o).1 = ((vixRule o).2.map Factor.delta).sum := by
  cases o with
  | none => rfl
  | some q => rw [vixRule]; split_ifs <;> rfl

theorem dxyRule_sum (o : Option Quote) :
    (dxyRule o).1 = ((dxyRule o).2.map Factor.delta).sum := by
  cases o with
  | none => rfl
  | some q => rw [dxyRule]; dsimp only; split_ifs <;> rfl

theorem crossFxRule_sum (o1 o2 o3 o4 : Option Quote) :
    (crossFxRule o1 o2 o3 o4).1 = ((crossFxRule o1 o2 o3 o4).2.map Factor.delta).sum := by
  cases o1 <;> cases o2 <;> cases o3 <;> cases o4 <;> try rfl
  rw [crossFxRule]; dsimp only; split_ifs <;> rfl

theorem krwusdRule_sum (o : Option Quote) :
    (krwusdRule o).1 = ((krwusdRule o).2.map Factor.delta).sum := by
  cases o with
  | none => rfl
  | some q => rw [krwusdRule]; split_ifs <;> rfl

theorem usdjpyRule_sum (o : Option Quote) :
    (usdjpyRule o).1 = ((usdjpyRule o).2.map Factor.delta).sum := by
  cases o with
  | none => rfl
  | some q => rw [usdjpyRule]; split_ifs <;> rfl

theorem krwjpyRule_sum (o : Option Quote) :
    (krwjpyRule o).1 = ((krwjpyRule o).2.map Factor.delta).sum := by
  cases o with
  | none => rfl
  | some q => rw [krwjpyRule]; split_ifs <;> rfl

theorem us10yRule_sum (o : Option Quote) :
    (us10yRule o).1 = ((us10yRule o).2.map Factor.delta).sum := by
  cases o with
  | none => rfl
  | some q => rw [us10yRule]; split_ifs <;> rfl

theorem goldRule_sum (o : Option Quote) :
    (goldRule o).1 = ((goldRule o).2.map Factor.delta).sum := by
  cases o with
  | none => rfl
  | some q => rw [goldRule]; split_ifs <;> rfl

theorem silverRule_sum (o : Option Quote) :
    (silverRule o).1 = ((silverRule o).2.map Factor.delta).sum := by
  cases o with
  | none => rfl
  | some q => rw [silverRule]; split_ifs <;> rfl

theorem btcRule_sum (o : Option Quote) :
    (btcRule o).1 = ((btcRule o).2.map Factor.delta).sum := by
  cases o with
  | none => rfl
  | some q => rw [btcRule]; split_ifs <;> rfl

/-- Summing the per-rule increments equals summing the deltas of the
concatenated factor lists, as long as each rule pairs them up. -/
theorem sum_fst_eq_sum_delta (rs : List (ℕ × List Factor))
    (h : ∀ p ∈ rs, p.1 = (p.2.map Factor.delta).sum) :
    (rs.map Prod.fst).sum = (((rs.map Prod.snd).flatten).map Factor.delta).sum := by
  induction rs with
  | nil => rfl
  | cons p t ih =>
    simp only [List.map_cons, List.sum_cons, List.flatten_cons, List.map_append,
      List.sum_append]
    rw [h p (List.mem_cons_self p t), ih (fun q hq => h q (List.mem_cons_of_mem p hq))]

theorem rule_results_sum (market_data : List Quote) :
    ∀ p ∈ rule_results market_data, p.1 = (p.2.map Factor.delta).sum := by
  intro p hp
  simp only [rule_results, List.mem_cons, List.not_mem_nil, or_false] at hp
  rcases hp with rfl | rfl | rfl | rfl | rfl | rfl | rfl | rfl | rfl | rfl | rfl | rfl | rfl
  · exact spxRule_sum _
  · exact ndxRule_sum _
  · exact divergenceRule_sum _ _
  · exact vixRule_sum _
  · exact dxyRule_sum _
  · exact crossFxRule_sum _ _ _ _
  · exact krwusdRule_sum _
  · exact usdjpyRule_sum _
  · exact krwjpyRule_sum _
  · exact us10yRule_sum _
  · exact goldRule_sum _
  · exact silverRule_sum _
  · exact btcRule_sum _

theorem risk_meta_level (s : ℕ) :
    ((risk_meta s).1 = RiskLevel.high ↔ 6 ≤ s) ∧
    ((risk_meta s).1 = RiskLevel.medium ↔ 3 ≤ s ∧ s < 6) ∧
    ((risk_meta s).1 = RiskLevel.low ↔ s < 3) := by
  rw [risk_meta]; split_ifs with h1 h2 <;> simp_all
  omega

/-- C7: for every input quote list, the risk signal's score is the sum of
the deltas of its factors, the factor list is the concatenation of the
per-rule factor lists in rule-evaluation order, and the level is high
iff score at least 6, medium iff the score is in the interval from 3 up
to but excluding 6, and low otherwise. -/
theorem risk_signal_invariant (market_data : List Quote) :
    (compute_risk_signal market_data).score
        = ((compute_risk_signal market_data).factors.map Factor.delta).sum ∧
    (compute_risk_signal market_data).factors
        = ((rule_results market_data).map Prod.snd).flatten ∧
    ((compute_risk_signal market_data).level = RiskLevel.high
        ↔ 6 ≤ (compute_risk_signal market_data).score) ∧
    ((compute_risk_signal market_data).level = RiskLevel.medium
        ↔ 3 ≤ (compute_risk_signal market_data).score
            ∧ (compute_risk_signal market_data).score < 6) ∧
    ((compute_risk_signal market_data).level = RiskLevel.low
        ↔ (compute_risk_signal market_data).score < 3) := by
  have hsc : (compute_risk_signal market_data).score
      = ((rule_results market_data).map Prod.fst).sum := rfl
  have hfa : (compute_risk_signal market_data).factors
      = ((rule_results market_data).map Prod.snd).flatten := rfl
  have hlv : (compute_risk_signal market_data).level
      = (risk_meta (compute_risk_signal market_data).score).1 := rfl
  refine ⟨?_, hfa, ?_, ?_, ?_⟩
  · rw [hsc, hfa]
    exact sum_fst_eq_sum_delta _ (rule_results_sum market_data)
  · rw [hlv]; exact (risk_meta_level _).1
  · rw [hlv]; exact (risk_meta_level _).2.1
  · rw [hlv]; exact (risk_meta_level _).2.2

theorem spxRule_of_sentinel (o : Option Quote)
    (h : ∀ q, o = some q → IsSentinel q) : spxRule o = (0, []) := by
  cases o with
  | none => rfl
  | some q => norm_num [spxRule, (h q rfl).2.2.1]

theorem ndxRule_of_sentinel (o : Option Quote)
    (h : ∀ q, o = some q → IsSentinel q) : ndxRule o = (0, []) := by
  cases o with
  | none => rfl
  | some q => norm_num [ndxRule, (h q rfl).2.2.1]

theorem divergenceRule_of_sentinel (o1 o2 : Option Quote)
    (h1 : ∀ q, o1 = some q → IsSentinel q) (h2 : ∀ q, o2 = some q → IsSentinel q) :
    divergenceRule o1 o2 = (0, []) := by
  cases o1 <;> cases o2 <;> try rfl
  norm_num [divergenceRule, pabs, (h1 _ rfl).2.2.1, (h2 _ rfl).2.2.1]

theorem vixRule_of_sentinel (o : Option Quote)
    (h : ∀ q, o = some q → IsSentinel q) : vixRule o = (0, []) := by
  cases o with
  | none => rfl
  | some q => simp [vixRule, (h q rfl).1]

theorem dxyRule_of_sentinel (o : Option Quote)
    (h : ∀ q, o = some q → IsSentinel q) : dxyRule o = (0, []) := by
  cases o with
  | none => rfl
  | some q => norm_num [dxyRule, (h q rfl).1, (h q rfl).2.2.1]

theorem crossFxRule_of_sentinel (o1 o2 o3 o4 : Option Quote)
    (h1 : ∀ q, o1 = some q → IsSentinel q) (h4 : ∀ q, o4 = some q → IsSentinel q) :
    crossFxRule o1 o2 o3 o4 = (0, []) := by
  cases o1 <;> cases o2 <;> cases o3 <;> cases o4 <;> try rfl
  norm_num [crossFxRule, (h1 _ rfl).2.2.1, (h4 _ rfl).2.2.1]

theorem krwusdRule_of_sentinel (o : Option Quote)
    (h : ∀ q, o = some q → IsSentinel q) : krwusdRule o = (0, []) := by
  cases o with
  | none => rfl
  | some q => norm_num [krwusdRule, (h q rfl).2.2.1]

theorem usdjpyRule_of_sentinel (o : Option Quote)
    (h : ∀ q, o = some q → IsSentinel q) : usdjpyRule o = (0, []) := by
  cases o with
  | none => rfl
  | some q => norm_num [usdjpyRule, (h q rfl).2.2.1]

theorem krwjpyRule_of_sentinel (o : Option Quote)
    (h : ∀ q, o = some q → IsSentinel q) : krwjpyRule o = (0, []) := by
  cases o with
  | none => rfl
  | some q => norm_num [krwjpyRule, (h q rfl).2.2.1]

theorem us10yRule_of_sentinel (o : Option Quote)
    (h : ∀ q, o = some q → IsSentinel q) : us10yRule o = (0, []) := by
  cases o with
  | none => rfl
  | some q => norm_num [us10yRule, pabs, (h q rfl).1, (h q rfl).2.1]

theorem goldRule_of_sentinel (o : Option Quote)
    (h : ∀ q, o = some q → IsSentinel q) : goldRule o = (0, []) := by
  cases o with
  | none => rfl
  | some q => norm_num [goldRule, (h q rfl).2.2.1]

theorem silverRule_of_sentinel (o : Option Quote)
    (h : ∀ q, o = some q → IsSentinel q) : silverRule o = (0, []) := by
  cases o with
  | none => rfl
  | some q => norm_num [silverRule, (h q rfl).2.2.1]

theorem btcRule_of_sentinel (o : Option Quote)
    (h : ∀ q, o = some q → IsSentinel q) : btcRule o = (0, []) := by
  cases o with
  | none => rfl
  | some q => norm_num [btcRule, (h q rfl).2.2.1]

theorem gold_silver_block_of_sentinel (og os : Option Quote)
    (hg : ∀ q, og = some q → IsSentinel q) (hs : ∀ q, os = some q → IsSentinel q) :
    gold_silver_block og os =
      if (og.isSome && os.isSome) = true then
        [("gold_silver", ⟨PairCall.buyGoldSellSilver, "#dc3545", 0⟩)]
      else [] := by
  cases og <;> cases os <;> try rfl
  norm_num [gold_silver_block, (hg _ rfl).1, (hs _ rfl).1]

theorem vix_bonds_stocks_block_of_sentinel (o : Option Quote)
    (h : ∀ q, o = some q → IsSentinel q) :
    vix_bonds_stocks_block o =
      if o.isSome = true then
        [("vix_bonds_stocks", ⟨PairCall.buyBondsSellSpx, "#28a745", 0⟩)]
      else [] := by
  cases o with
  | none => rfl
  | some q => norm_num [vix_bonds_stocks_block, (h q rfl).1]

theorem usd_jpy_block_of_sentinel (o : Option Quote)
    (h : ∀ q, o = some q → IsSentinel q) :
    usd_jpy_block o =
      if o.isSome = true then
        [("usd_jpy", ⟨PairCall.buyUsdSellJpy, "#dc3545", 0⟩)]
      else [] := by
  cases o with
  | none => rfl
  | some q => norm_num [usd_jpy_block, (h q rfl).1, (h q rfl).2.2.1]

theorem spx_ndx_block_of_sentinel (og os : Option Quote)
    (hg : ∀ q, og = some q → IsSentinel q) (hs : ∀ q, os = some q → IsSentinel q) :
    spx_ndx_block og os =
      if (og.isSome && os.isSome) = true then
        [("spx_ndx", ⟨PairCall.neutral, "#ffc107", 0⟩)]
      else [] := by
  cases og <;> cases os <;> try rfl
  norm_num [spx_ndx_block, (hg _ rfl).2.2.1, (hs _ rfl).2.2.1]

/-- C1 (amended): on an input in which every quote is the all-zero
fetch-failure sentinel, compute_risk_signal returns score 0, level low
and an empty factor list; calculate_pair_trading_signals does not return
an empty mapping but one entry per pair whose quotes are present, each
computed from the zero sentinel values: a buy-gold call with basis 0, a
buy-bonds call with basis 0, a buy-dollar call with basis 0 and a
neutral call with basis 0.  Neither function raises. -/
theorem degraded_outputs_under_total_failure (data : List Quote)
    (hs : AllSentinel data) :
    compute_risk_signal data =
      { score := 0, level := RiskLevel.low, color := "#28a745", emoji := "🟢",
        factors := [] } ∧
    calculate_pair_trading_signals data =
      (if ((get_item data "gold").isSome && (get_item data "silver").isSome) = true then
        [("gold_silver", ⟨PairCall.buyGoldSellSilver, "#dc3545", 0⟩)] else [])
      ++ (if (get_item data "vix").isSome = true then
        [("vix_bonds_stocks", ⟨PairCall.buyBondsSellSpx, "#28a745", 0⟩)] else [])
      ++ (if (get_item data "usdjpy").isSome = true then
        [("usd_jpy", ⟨PairCall.buyUsdSellJpy, "#dc3545", 0⟩)] else [])
      ++ (if ((get_item data "spx").isSome && (get_item data "ndx").isSome) = true then
        [("spx_ndx", ⟨PairCall.neutral, "#ffc107", 0⟩)] else []) := by
  have hget : ∀ k : String, ∀ q, get_item data k = some q → IsSentinel q :=
    fun k q hq => hs q (get_item_mem hq)
  constructor
  · have e1 := spxRule_of_sentinel _ (hget "spx")
    have e2 := ndxRule_of_sentinel _ (hget "ndx")
    have e3 := divergenceRule_of_sentinel _ _ (hget "spx") (hget "ndx")
    have e4 := vixRule_of_sentinel _ (hget "vix")
    have e5 := dxyRule_of_sentinel _ (hget "dxy")
    have e6 := crossFxRule_of_sentinel (get_item data "dxy") (get_item data "krwusd")
      (get_item data "usdjpy") (get_item data "krwjpy") (hget "dxy") (hget "krwjpy")
    have e7 := krwusdRule_of_sentinel _ (hget "krwusd")
    have e8 := usdjpyRule_of_sentinel _ (hget "usdjpy")
    have e9 := krwjpyRule_of_sentinel _ (hget "krwjpy")
    have e10 := us10yRule_of_sentinel _ (hget "us10y")
    have e11 := goldRule_of_sentinel _ (hget "gold")
    have e12 := silverRule_of_sentinel _ (hget "silver")
    have e13 := btcRule_of_sentinel _ (hget "btc")
    norm_num [compute_risk_signal, rule_results, e1, e2, e3, e4, e5, e6, e7, e8,
      e9, e10, e11, e12, e13, risk_meta]
  · rw [calculate_pair_trading_signals,
      gold_silver_block_of_sentinel _ _ (hget "gold") (hget "silver"),
      vix_bonds_stocks_block_of_sentinel _ (hget "vix"),
      usd_jpy_block_of_sentinel _ (hget "usdjpy"),
      spx_ndx_block_of_sentinel _ _ (hget "spx") (hget "ndx")]

theorem degraded_outputs_under_total_failure_witness :
    compute_risk_signal sentinel_data =
      { score := 0, level := RiskLevel.low, color := "#28a745", emoji := "🟢",
        factors := [] } ∧
    calculate_pair_trading_signals sentinel_data =
      [("gold_silver", ⟨PairCall.buyGoldSellSilver, "#dc3545", 0⟩),
       ("vix_bonds_stocks", ⟨PairCall.buyBondsSellSpx, "#28a745", 0⟩),
       ("usd_jpy", ⟨PairCall.buyUsdSellJpy, "#dc3545", 0⟩),
       ("spx_ndx", ⟨PairCall.neutral, "#ffc107", 0⟩)] := by
  have h := degraded_outputs_under_total_failure sentinel_data (by decide)
  refine ⟨h.1, ?_⟩
  rw [h.2]
  rfl

/-- C1 (counterexample): when every instrument's fetch fails, every
quote of the snapshot is the sentinel, yet the pair-signal mapping is
not empty — the engines never consult a quote's status field. -/
theorem pair_mapping_not_empty_under_total_failure :
    AllSentinel sentinel_data ∧
    calculate_pair_trading_signals sentinel_data ≠ [] := by
  constructor
  · decide
  · have h := degraded_outputs_under_total_failure sentinel_data (by decide)
    rw [h.2]
    decide

theorem gold_silver_block_none_left (os : Option Quote) :
    gold_silver_block none os = [] := by
  cases os <;> rfl

theorem gold_silver_block_none_right (og : Option Quote) :
    gold_silver_block og none = [] := by
  cases og <;> rfl

theorem spx_ndx_block_none_left (os : Option Quote) :
    spx_ndx_block none os = [] := by
  cases os <;> rfl

theorem spx_ndx_block_none_right (og : Option Quote) :
    spx_ndx_block og none = [] := by
  cases og <;> rfl

theorem gold_silver_block_keys (og os : Option Quote) (x : String)
    (h : x ∈ (gold_silver_block og os).map Prod.fst) : x = "gold_silver" := by
  cases og <;> cases os <;> simp [gold_silver_block] at h
  exact h

theorem vix_bonds_stocks_block_keys (o : Option Quote) (x : String)
    (h : x ∈ (vix_bonds_stocks_block o).map Prod.fst) : x = "vix_bonds_stocks" := by
  cases o <;> simp [vix_bonds_stocks_block] at h
  exact h

theorem usd_jpy_block_keys (o : Option Quote) (x : String)
    (h : x ∈ (usd_jpy_block o).map Prod.fst) : x = "usd_jpy" := by
  cases o <;> simp [usd_jpy_block] at h
  exact h

theorem spx_ndx_block_keys (og os : Option Quote) (x : String)
    (h : x ∈ (spx_ndx_block og os).map Prod.fst) : x = "spx_ndx" := by
  cases og <;> cases os <;> simp [spx_ndx_block] at h
  exact h

/-- C2 (amended): a pair is absent from the output mapping whenever one
of its required quotes is absent from the input list; an error-sentinel
record, in contrast, counts as an available quote (see the
counterexample). -/
theorem pair_absent_when_quote_missing (data : List Quote) :
    ((get_item data "gold" = none ∨ get_item data "silver" = none) →
      "gold_silver" ∉ (calculate_pair_trading_signals data).map Prod.fst) ∧
    (get_item data "vix" = none →
      "vix_bonds_stocks" ∉ (calculate_pair_trading_signals data).map Prod.fst) ∧
    (get_item data "usdjpy" = none →
      "usd_jpy" ∉ (calculate_pair_trading_signals data).map Prod.fst) ∧
    ((get_item data "spx" = none ∨ get_item data "ndx" = none) →
      "spx_ndx" ∉ (calculate_pair_trading_signals data).map Prod.fst) := by
  refine ⟨?_, ?_, ?_, ?_⟩
  · intro h hmem
    have hb : gold_silver_block (get_item data "gold") (get_item data "silver") = [] := by
      rcases h with h | h <;> rw [h]
      · exact gold_silver_block_none_left _
      · exact gold_silver_block_none_right _
    simp only [calculate_pair_trading_signals, hb, List.nil_append, List.map_append,
      List.mem_append] at hmem
    rcases hmem with (h1 | h1) | h1
    · exact absurd (vix_bonds_stocks_block_keys _ _ h1) (by decide)
    · exact absurd (usd_jpy_block_keys _ _ h1) (by decide)
    · exact absurd (spx_ndx_block_keys _ _ _ h1) (by decide)
  · intro h hmem
    have hb : vix_bonds_stocks_block (get_item data "vix") = [] :=
      (congrArg vix_bonds_stocks_block h).trans rfl
    simp only [calculate_pair_trading_signals, hb, List.append_nil,
      List.map_append, List.mem_append] at hmem
    rcases hmem with (h1 | h1) | h1
    · exact absurd (gold_silver_block_keys _ _ _ h1) (by decide)
    · exact absurd (usd_jpy_block_keys _ _ h1) (by decide)
    · exact absurd (spx_ndx_block_keys _ _ _ h1) (by decide)
  · intro h hmem
    have hb : usd_jpy_block (get_item data "usdjpy") = [] :=
      (congrArg usd_jpy_block h).trans rfl
    simp only [calculate_pair_trading_signals, hb, List.append_nil,
      List.map_append, List.mem_append] at hmem
    rcases hmem with (h1 | h1) | h1
    · exact absurd (gold_silver_block_keys _ _ _ h1) (by decide)
    · exact absurd (vix_bonds_stocks_block_keys _ _ h1) (by decide)
    · exact absurd (spx_ndx_block_keys _ _ _ h1) (by decide)
  · intro h hmem
    have hb : spx_ndx_block (get_item data "spx") (get_item data "ndx") = [] := by
      rcases h with h | h <;> rw [h]
      · exact spx_ndx_block_none_left _
      · exact spx_ndx_block_none_right _
    simp only [calculate_pair_trading_signals, hb, List.append_nil, List.map_append,
      List.mem_append] at hmem
    rcases hmem with (h1 | h1) | h1
    · exact absurd (gold_silver_block_keys _ _ _ h1) (by decide)
    · exact absurd (vix_bonds_stocks_block_keys _ _ h1) (by decide)
    · exact absurd (usd_jpy_block_keys _ _ h1) (by decide)

theorem pair_absent_when_quote_missing_witness :
    "gold_silver" ∉ (calculate_pair_trading_signals []).map Prod.fst ∧
    "vix_bonds_stocks" ∉ (calculate_pair_trading_signals []).map Prod.fst ∧
    "usd_jpy" ∉ (calculate_pair_trading_signals []).map Prod.fst ∧
    "spx_ndx" ∉ (calculate_pair_trading_signals []).map Prod.fst := by
  have h := pair_absent_when_quote_missing []
  exact ⟨h.1 (Or.inl rfl), h.2.1 rfl, h.2.2.1 rfl, h.2.2.2 (Or.inl rfl)⟩

/-- C2 (counterexample): with the gold and silver quotes both present as
error-sentinel records, the gold_silver pair is still emitted — an
error-sentinel quote does not cause the pair to be omitted. -/
theorem pair_present_despite_error_sentinels :
    IsSentinel sentinel_gold ∧ IsSentinel sentinel_silver ∧
    "gold_silver" ∈
      (calculate_pair_trading_signals [sentinel_gold, sentinel_silver]).map Prod.fst := by
  refine ⟨by decide, by decide, ?_⟩
  have h := degraded_outputs_under_total_failure [sentinel_gold, sentinel_silver] (by decide)
  rw [h.2]
  decide

/-- C3 (counterexample): with spx at -4.0% and ndx at -1.0% and all
other quotes absent, the total score is 6 and the level is high, not 5
and medium — the -1.0% tech-index change also fires its lowest tier. -/
theorem golden3_score_is_six :
    (compute_risk_signal spx_ndx_decline_data).score = 6 ∧
    (compute_risk_signal spx_ndx_decline_data).level = RiskLevel.high := by
  have h1 : get_item spx_ndx_decline_data "spx" = some (testQuote "spx" 0 0 (-4)) := rfl
  have h2 : get_item spx_ndx_decline_data "ndx" = some (testQuote "ndx" 0 0 (-1)) := rfl
  have h3 : get_item spx_ndx_decline_data "vix" = none := rfl
  have h4 : get_item spx_ndx_decline_data "dxy" = none := rfl
  have h5 : get_item spx_ndx_decline_data "krwusd" = none := rfl
  have h6 : get_item spx_ndx_decline_data "usdjpy" = none := rfl
  have h7 : get_item spx_ndx_decline_data "krwjpy" = none := rfl
  have h8 : get_item spx_ndx_decline_data "us10y" = none := rfl
  have h9 : get_item spx_ndx_decline_data "gold" = none := rfl
  have h10 : get_item spx_ndx_decline_data "silver" = none := rfl
  have h11 : get_item spx_ndx_decline_data "btc" = none := rfl
  norm_num [compute_risk_signal, rule_results, h1, h2, h3, h4, h5, h6, h7, h8,
    h9, h10, h11, spxRule, ndxRule, divergenceRule, vixRule, dxyRule, crossFxRule,
    krwusdRule, usdjpyRule, krwjpyRule, us10yRule, goldRule, silverRule, btcRule,
    risk_meta, pabs, testQuote]

/-- C3 (amended): with spx at -4.0% and ndx at -1.0% and all other
quotes absent, the large-cap plunge tier fires with delta 3, the
tech-index weakness tier fires with delta 1, and the divergence of 3.0
points fires its top tier with delta 2: total score 6, level high. -/
theorem golden3_factors :
    compute_risk_signal spx_ndx_decline_data =
      { score := 6, level := RiskLevel.high, color := "#dc3545", emoji := "🔴",
        factors := [⟨FactorKind.spxPlunge, -4, 3⟩, ⟨FactorKind.ndxWeak, -1, 1⟩,
          ⟨FactorKind.divergenceHigh, 3, 2⟩] } := by
  have h1 : get_item spx_ndx_decline_data "spx" = some (testQuote "spx" 0 0 (-4)) := rfl
  have h2 : get_item spx_ndx_decline_data "ndx" = some (testQuote "ndx" 0 0 (-1)) := rfl
  have h3 : get_item spx_ndx_decline_data "vix" = none := rfl
  have h4 : get_item spx_ndx_decline_data "dxy" = none := rfl
  have h5 : get_item spx_ndx_decline_data "krwusd" = none := rfl
  have h6 : get_item spx_ndx_decline_data "usdjpy" = none := rfl
  have h7 : get_item spx_ndx_decline_data "krwjpy" = none := rfl
  have h8 : get_item spx_ndx_decline_data "us10y" = none := rfl
  have h9 : get_item spx_ndx_decline_data "gold" = none := rfl
  have h10 : get_item spx_ndx_decline_data "silver" = none := rfl
  have h11 : get_item spx_ndx_decline_data "btc" = none := rfl
  norm_num [compute_risk_signal, rule_results, h1, h2, h3, h4, h5, h6, h7, h8,
    h9, h10, h11, spxRule, ndxRule, divergenceRule, vixRule, dxyRule, crossFxRule,
    krwusdRule, usdjpyRule, krwjpyRule, us10yRule, goldRule, silverRule, btcRule,
    risk_meta, pabs, testQuote]

/-- C4 (counterexample): an input whose only quote is spx with a change
of exactly -3.0%: the top tier does not fire; the -1.5% tier fires with
delta 2, so the claimed delta-3 contribution does not happen. -/
theorem spx_exactly_minus3_scores_two :
    compute_risk_signal spx_minus3_data =
      { score := 2, level := RiskLevel.low, color := "#28a745", emoji := "🟢",
        factors := [⟨FactorKind.spxDecline, -3, 2⟩] } := by
  have h1 : get_item spx_minus3_data "spx" = some (testQuote "spx" 0 0 (-3)) := rfl
  have h2 : get_item spx_minus3_data "ndx" = none := rfl
  have h3 : get_item spx_minus3_data "vix" = none := rfl
  have h4 : get_item spx_minus3_data "dxy" = none := rfl
  have h5 : get_item spx_minus3_data "krwusd" = none := rfl
  have h6 : get_item spx_minus3_data "usdjpy" = none := rfl
  have h7 : get_item spx_minus3_data "krwjpy" = none := rfl
  have h8 : get_item spx_minus3_data "us10y" = none := rfl
  have h9 : get_item spx_minus3_data "gold" = none := rfl
  have h10 : get_item spx_minus3_data "silver" = none := rfl
  have h11 : get_item spx_minus3_data "btc" = none := rfl
  norm_num [compute_risk_signal, rule_results, h1, h2, h3, h4, h5, h6, h7, h8,
    h9, h10, h11, spxRule, ndxRule, divergenceRule, vixRule, dxyRule, crossFxRule,
    krwusdRule, usdjpyRule, krwjpyRule, us10yRule, goldRule, silverRule, btcRule,
    risk_meta, pabs, testQuote]

/-- C4 (amended): the spx tiers fire only under strict inequality: for
any spx quote with change rate exactly -3.0 the rule fires the second
tier, contributing delta 2, not the top tier's delta 3. -/
theorem spx_decline_tiers_strict (q : Quote) (hc : q.change_pct = -3) :
    spxRule (some q) = (2, [⟨FactorKind.spxDecline, -3, 2⟩]) := by
  norm_num [spxRule, hc]

theorem spx_decline_tiers_strict_witness :
    spxRule (some (testQuote "spx" 0 0 (-3))) = (2, [⟨FactorKind.spxDecline, -3, 2⟩]) :=
  spx_decline_tiers_strict (testQuote "spx" 0 0 (-3)) rfl

/-- C5: for any fear-gauge quote at level exactly 25.0, the VIX rule of
compute_risk_signal does not fire the >25 tier but does fire the >15
tier, contributing exactly one factor with delta 1. -/
theorem vix_exactly_25_fires_lower_tier (q : Quote) (hcur : q.current_value = 25) :
    vixRule (some q) = (1, [⟨FactorKind.vixSomewhatHigh, 25, 1⟩]) := by
  norm_num [vixRule, hcur]

theorem vix_exactly_25_fires_lower_tier_witness :
    vixRule (some (testQuote "vix" 25 25 0)) = (1, [⟨FactorKind.vixSomewhatHigh, 25, 1⟩]) :=
  vix_exactly_25_fires_lower_tier (testQuote "vix" 25 25 0) rfl

/-- C8 (counterexample): with a non-error gold quote at 100 and a
non-error silver quote whose current value is 0, the gold_silver pair is
not omitted: the ratio is defaulted to 0 and the pair is emitted with
the buy-gold call. -/
theorem zero_denominator_pair_emitted :
    calculate_pair_trading_signals zero_silver_data =
      [("gold_silver", ⟨PairCall.buyGoldSellSilver, "#dc3545", 0⟩)] := by
  have h1 : get_item zero_silver_data "gold" = some (testQuote "gold" 100 100 0) := rfl
  have h2 : get_item zero_silver_data "silver" = some (testQuote "silver" 0 0 0) := rfl
  have h3 : get_item zero_silver_data "vix" = none := rfl
  have h4 : get_item zero_silver_data "usdjpy" = none := rfl
  have h5 : get_item zero_silver_data "spx" = none := rfl
  have h6 : get_item zero_silver_data "ndx" = none := rfl
  norm_num [calculate_pair_trading_signals, h1, h2, h3, h4, h5, h6,
    gold_silver_block, vix_bonds_stocks_block, usd_jpy_block, spx_ndx_block, testQuote]

/-- C8 (amended): whenever the gold and silver quotes are both present
and the silver (denominator) current value is zero, the gold_silver pair
is emitted with a defaulted basis of 0 and the buy-gold call, rather
than being omitted. -/
theorem zero_denominator_defaults_basis (data : List Quote) (g s : Quote)
    (hg : get_item data "gold" = some g) (hs : get_item data "silver" = some s)
    (h0 : s.current_value = 0) :
    ("gold_silver", (⟨PairCall.buyGoldSellSilver, "#dc3545", 0⟩ : PairSignal))
      ∈ calculate_pair_trading_signals data := by
  have hb : gold_silver_block (get_item data "gold") (get_item data "silver")
      = [("gold_silver", ⟨PairCall.buyGoldSellSilver, "#dc3545", 0⟩)] := by
    rw [hg, hs]
    norm_num [gold_silver_block, h0]
  rw [calculate_pair_trading_signals, hb]
  exact List.mem_append_left _ (List.mem_append_left _
    (List.mem_append_left _ (List.mem_cons_self _ _)))

theorem zero_denominator_defaults_basis_witness :
    ("gold_silver", (⟨PairCall.buyGoldSellSilver, "#dc3545", 0⟩ : PairSignal))
      ∈ calculate_pair_trading_signals zero_silver_data :=
  zero_denominator_defaults_basis zero_silver_data
    (testQuote "gold" 100 100 0) (testQuote "silver" 0 0 0) rfl rfl rfl

/-- C6: when two closes are obtained and the previous close is nonzero,
the built quote's change rate is (current - previous) / previous x 100;
with fewer than two observations, or a zero previous close (where the
Python division raises and the handler yields the sentinel), the change
rate is 0 and the previous value equals the current value. -/
theorem change_pct_formula (key name ticker symbol : String) (hist : List ℚ) :
    (2 ≤ hist.length → hist.getD (hist.length - 2) 0 ≠ 0 →
      (build_quote key name ticker symbol (Except.ok hist)).change_pct
        = (hist.getD (hist.length - 1) 0 - hist.getD (hist.length - 2) 0)
            / hist.getD (hist.length - 2) 0 * 100) ∧
    (hist.length < 2 →
      (build_quote key name ticker symbol (Except.ok hist)).change_pct = 0 ∧
      (build_quote key name ticker symbol (Except.ok hist)).previous_value
        = (build_quote key name ticker symbol (Except.ok hist)).current_value) ∧
    (2 ≤ hist.length → hist.getD (hist.length - 2) 0 = 0 →
      (build_quote key name ticker symbol (Except.ok hist)).change_pct = 0 ∧
      (build_quote key name ticker symbol (Except.ok hist)).previous_value
        = (build_quote key name ticker symbol (Except.ok hist)).current_value) := by
  refine ⟨?_, ?_, ?_⟩
  · intro h2 hp
    simp only [List.getD_eq_getElem?_getD] at hp
    simp [build_quote, try_build, h2, hp, mk_quote]
  · intro h
    have h2 : ¬ 2 ≤ hist.length := by omega
    simp [build_quote, try_build, h2, mk_quote]
  · intro h2 hp
    simp only [List.getD_eq_getElem?_getD] at hp
    simp [build_quote, try_build, h2, hp, error_quote]

theorem change_pct_formula_witness :
    (build_quote "gold" "금 (Gold)" "XAU/USD" "GC=F" (Except.ok [2, 4])).change_pct = 100 ∧
    (build_quote "gold" "금 (Gold)" "XAU/USD" "GC=F" (Except.ok [7])).change_pct = 0 ∧
    (build_quote "gold" "금 (Gold)" "XAU/USD" "GC=F" (Except.ok [0, 5])).change_pct = 0 := by
  refine ⟨?_, ?_, ?_⟩
  · have h := (change_pct_formula "gold" "금 (Gold)" "XAU/USD" "GC=F" [2, 4]).1
      (by norm_num) (by norm_num)
    rw [h]; norm_num
  · exact ((change_pct_formula "gold" "금 (Gold)" "XAU/USD" "GC=F" [7]).2.1
      (by norm_num)).1
  · exact ((change_pct_formula "gold" "금 (Gold)" "XAU/USD" "GC=F" [0, 5]).2.2
      (by norm_num) (by norm_num)).1

theorem mk_quote_status_trichotomy (key name ticker symbol : String) (cur prev chg : ℚ) :
    ((mk_quote key name ticker symbol cur prev chg).status = Status.stable ↔ |chg| < 1) ∧
    (¬ |chg| < 1 →
      ((mk_quote key name ticker symbol cur prev chg).status = Status.rising ↔ 0 < chg)) ∧
    (¬ |chg| < 1 → ¬ 0 < chg →
      (mk_quote key name ticker symbol cur prev chg).status = Status.falling) := by
  rw [← pabs_eq_abs]
  simp only [mk_quote]
  split_ifs with h1 h2 <;> simp_all

/-- C9 (amended): every built quote whose status is not the error
sentinel satisfies the trichotomy: stable iff the absolute change rate
is strictly below 1.0 (the boundary is exclusive), otherwise rising iff
the change rate is positive, and falling otherwise. -/
theorem built_quote_status_trichotomy (key name ticker symbol : String)
    (fetched : Except Unit (List ℚ))
    (h : (build_quote key name ticker symbol fetched).status ≠ Status.error) :
    ((build_quote key name ticker symbol fetched).status = Status.stable
        ↔ |(build_quote key name ticker symbol fetched).change_pct| < 1) ∧
    (¬ |(build_quote key name ticker symbol fetched).change_pct| < 1 →
      ((build_quote key name ticker symbol fetched).status = Status.rising
        ↔ 0 < (build_quote key name ticker symbol fetched).change_pct)) ∧
    (¬ |(build_quote key name ticker symbol fetched).change_pct| < 1 →
      ¬ 0 < (build_quote key name ticker symbol fetched).change_pct →
      (build_quote key name ticker symbol fetched).status = Status.falling) := by
  cases fetched with
  | error e => exact absurd rfl h
  | ok hist =>
    by_cases h2 : 2 ≤ hist.length
    · by_cases hp : hist.getD (hist.length - 2) 0 = 0
      · have hst : (build_quote key name ticker symbol (Except.ok hist)).status
            = Status.error := by
          simp only [List.getD_eq_getElem?_getD] at hp
          simp [build_quote, try_build, h2, hp, error_quote]
        exact absurd hst h
      · have hb : build_quote key name ticker symbol (Except.ok hist)
            = mk_quote key name ticker symbol (hist.getD (hist.length - 1) 0)
                (hist.getD (hist.length - 2) 0)
                ((hist.getD (hist.length - 1) 0 - hist.getD (hist.length - 2) 0)
                  / hist.getD (hist.length - 2) 0 * 100) := by
          simp only [List.getD_eq_getElem?_getD] at hp
          simp [build_quote, try_build, h2, hp]
        rw [hb]
        exact mk_quote_status_trichotomy key name ticker symbol _ _ _
    · have hb : build_quote key name ticker symbol (Except.ok hist)
          = mk_quote key name ticker symbol
              (if hist.isEmpty then 0 else hist.getD (hist.length - 1) 0)
              (if hist.isEmpty then 0 else hist.getD (hist.length - 1) 0) 0 := by
        simp [build_quote, try_build, h2]
      rw [hb]
      exact mk_quote_status_trichotomy key name ticker symbol _ _ _

theorem built_quote_status_trichotomy_witness :
    ((build_quote "gold" "금 (Gold)" "XAU/USD" "GC=F" (Except.ok [2, 4])).status
        = Status.stable
      ↔ |(build_quote "gold" "금 (Gold)" "XAU/USD" "GC=F" (Except.ok [2, 4])).change_pct|
          < 1) :=
  (built_quote_status_trichotomy "gold" "금 (Gold)" "XAU/USD" "GC=F" (Except.ok [2, 4])
    (by norm_num [build_quote, try_build, mk_quote, pabs]; decide)).1

/-- C9 (counterexample): the fetch-failure sentinel quote has a change
rate of 0, whose absolute value is below 1.0, yet its status is the
error marker, not stable — the claimed trichotomy does not hold for
every built quote, only for non-error ones. -/
theorem sentinel_quote_breaks_trichotomy :
    (build_quote "gold" "금 (Gold)" "XAU/USD" "GC=F" (Except.error ())).status
        ≠ Status.stable ∧
    |(build_quote "gold" "금 (Gold)" "XAU/USD" "GC=F" (Except.error ())).change_pct| < 1 := by
  constructor
  · decide
  · norm_num [build_quote, error_quote]

theorem get_item_rel {d1 d2 : List Quote} (h : List.Forall₂ EqExceptStatus d1 d2)
    (k : String) :
    (get_item d1 k = none ∧ get_item d2 k = none) ∨
    (∃ a b, get_item d1 k = some a ∧ get_item d2 k = some b ∧ EqExceptStatus a b) := by
  induction h with
  | nil => exact Or.inl ⟨rfl, rfl⟩
  | @cons a b l1 l2 hab htl ih =>
    rw [get_item, get_item]
    by_cases hk : a.id = k
    · rw [if_pos hk, if_pos (hab.1.symm.trans hk)]
      exact Or.inr ⟨a, b, rfl, rfl, hab⟩
    · rw [if_neg hk, if_neg (fun hbk => hk (hab.1.trans hbk))]
      exact ih

theorem spxRule_congr {a b : Quote} (h : EqExceptStatus a b) :
    spxRule (some a) = spxRule (some b) := by
  simp only [spxRule, h.2.2.2.2.2.1]

theorem ndxRule_congr {a b : Quote} (h : EqExceptStatus a b) :
    ndxRule (some a) = ndxRule (some b) := by
  simp only [ndxRule, h.2.2.2.2.2.1]

theorem vixRule_congr {a b : Quote} (h : EqExceptStatus a b) :
    vixRule (some a) = vixRule (some b) := by
  simp only [vixRule, h.2.2.2.1]

theorem dxyRule_congr {a b : Quote} (h : EqExceptStatus a b) :
    dxyRule (some a) = dxyRule (some b) := by
  simp only [dxyRule, h.2.2.2.1, h.2.2.2.2.2.1]

theorem krwusdRule_congr {a b : Quote} (h : EqExceptStatus a b) :
    krwusdRule (some a) = krwusdRule (some b) := by
  simp only [krwusdRule, h.2.2.2.2.2.1]

theorem usdjpyRule_congr {a b : Quote} (h : EqExceptStatus a b) :
    usdjpyRule (some a) = usdjpyRule (some b) := by
  simp only [usdjpyRule, h.2.2.2.2.2.1]

theorem krwjpyRule_congr {a b : Quote} (h : EqExceptStatus a b) :
    krwjpyRule (some a) = krwjpyRule (some b) := by
  simp only [krwjpyRule, h.2.2.2.2.2.1]

theorem us10yRule_congr {a b : Quote} (h : EqExceptStatus a b) :
    us10yRule (some a) = us10yRule (some b) := by
  simp only [us10yRule, h.2.2.2.1, h.2.2.2.2.1]

theorem goldRule_congr {a b : Quote} (h : EqExceptStatus a b) :
    goldRule (some a) = goldRule (some b) := by
  simp only [goldRule, h.2.2.2.2.2.1]

theorem silverRule_congr {a b : Quote} (h : EqExceptStatus a b) :
    silverRule (some a) = silverRule (some b) := by
  simp only [silverRule, h.2.2.2.2.2.1]

theorem btcRule_congr {a b : Quote} (h : EqExceptStatus a b) :
    btcRule (some a) = btcRule (some b) := by
  simp only [btcRule, h.2.2.2.2.2.1]

/-- C10: the two engines never read a quote's status field — on any two
input lists that agree on every field except status, both return
identical outputs. -/
theorem engines_ignore_status {d1 d2 : List Quote}
    (h : List.Forall₂ EqExceptStatus d1 d2) :
    compute_risk_signal d1 = compute_risk_signal d2 ∧
    calculate_pair_trading_signals d1 = calculate_pair_trading_signals d2 := by
  have Hspx := get_item_rel h "spx"
  have Hndx := get_item_rel h "ndx"
  have Hvix := get_item_rel h "vix"
  have Hdxy := get_item_rel h "dxy"
  have Hkrwusd := get_item_rel h "krwusd"
  have Husdjpy := get_item_rel h "usdjpy"
  have Hkrwjpy := get_item_rel h "krwjpy"
  have Hus10y := get_item_rel h "us10y"
  have Hgold := get_item_rel h "gold"
  have Hsilver := get_item_rel h "silver"
  have Hbtc := get_item_rel h "btc"
  have espx : spxRule (get_item d1 "spx") = spxRule (get_item d2 "spx") := by
    rcases Hspx with ⟨e1, e2⟩ | ⟨a, b, e1, e2, hab⟩ <;> rw [e1, e2]
    exact spxRule_congr hab
  have endx : ndxRule (get_item d1 "ndx") = ndxRule (get_item d2 "ndx") := by
    rcases Hndx with ⟨e1, e2⟩ | ⟨a, b, e1, e2, hab⟩ <;> rw [e1, e2]
    exact ndxRule_congr hab
  have ediv : divergenceRule (get_item d1 "spx") (get_item d1 "ndx")
      = divergenceRule (get_item d2 "spx") (get_item d2 "ndx") := by
    rcases Hspx with ⟨e1, e2⟩ | ⟨a, b, e1, e2, hab⟩ <;>
      rcases Hndx with ⟨f1, f2⟩ | ⟨c, d, f1, f2, hcd⟩ <;>
      rw [e1, e2, f1, f2] <;> try rfl
    simp only [divergenceRule, hab.2.2.2.2.2.1, hcd.2.2.2.2.2.1]
  have evix : vixRule (get_item d1 "vix") = vixRule (get_item d2 "vix") := by
    rcases Hvix with ⟨e1, e2⟩ | ⟨a, b, e1, e2, hab⟩ <;> rw [e1, e2]
    exact vixRule_congr hab
  have edxy : dxyRule (get_item d1 "dxy") = dxyRule (get_item d2 "dxy") := by
    rcases Hdxy with ⟨e1, e2⟩ | ⟨a, b, e1, e2, hab⟩ <;> rw [e1, e2]
    exact dxyRule_congr hab
  have ecross : crossFxRule (get_item d1 "dxy") (get_item d1 "krwusd")
        (get_item d1 "usdjpy") (get_item d1 "krwjpy")
      = crossFxRule (get_item d2 "dxy") (get_item d2 "krwusd")
        (get_item d2 "usdjpy") (get_item d2 "krwjpy") := by
    rcases Hdxy with ⟨e1, e2⟩ | ⟨a, b, e1, e2, hab⟩ <;>
      rcases Hkrwusd with ⟨f1, f2⟩ | ⟨c, d, f1, f2, hcd⟩ <;>
      rcases Husdjpy with ⟨g1, g2⟩ | ⟨u, v, g1, g2, huv⟩ <;>
      rcases Hkrwjpy with ⟨i1, i2⟩ | ⟨w, x, i1, i2, hwx⟩ <;>
      rw [e1, e2, f1, f2, g1, g2, i1, i2] <;> try rfl
    simp only [crossFxRule, hab.2.2.2.2.2.1, hwx.2.2.2.2.2.1]
  have ekrwusd : krwusdRule (get_item d1 "krwusd") = krwusdRule (get_item d2 "krwusd") := by
    rcases Hkrwusd with ⟨e1, e2⟩ | ⟨a, b, e1, e2, hab⟩ <;> rw [e1, e2]
    exact krwusdRule_congr hab
  have eusdjpy : usdjpyRule (get_item d1 "usdjpy") = usdjpyRule (get_item d2 "usdjpy") := by
    rcases Husdjpy with ⟨e1, e2⟩ | ⟨a, b, e1, e2, hab⟩ <;> rw [e1, e2]
    exact usdjpyRule_congr hab
  have ekrwjpy : krwjpyRule (get_item d1 "krwjpy") = krwjpyRule (get_item d2 "krwjpy") := by
    rcases Hkrwjpy with ⟨e1, e2⟩ | ⟨a, b, e1, e2, hab⟩ <;> rw [e1, e2]
    exact krwjpyRule_congr hab
  have eus10y : us10yRule (get_item d1 "us10y") = us10yRule (get_item d2 "us10y") := by
    rcases Hus10y with ⟨e1, e2⟩ | ⟨a, b, e1, e2, hab⟩ <;> rw [e1, e2]
    exact us10yRule_congr hab
  have egold : goldRule (get_item d1 "gold") = goldRule (get_item d2 "gold") := by
    rcases Hgold with ⟨e1, e2⟩ | ⟨a, b, e1, e2, hab⟩ <;> rw [e1, e2]
    exact goldRule_congr hab
  have esilver : silverRule (get_item d1 "silver") = silverRule (get_item d2 "silver") := by
    rcases Hsilver with ⟨e1, e2⟩ | ⟨a, b, e1, e2, hab⟩ <;> rw [e1, e2]
    exact silverRule_congr hab
  have ebtc : btcRule (get_item d1 "btc") = btcRule (get_item d2 "btc") := by
    rcases Hbtc with ⟨e1, e2⟩ | ⟨a, b, e1, e2, hab⟩ <;> rw [e1, e2]
    exact btcRule_congr hab
  have hrules : rule_results d1 = rule_results d2 := by
    simp only [rule_results]
    rw [espx, endx, ediv, evix, edxy, ecross, ekrwusd, eusdjpy, ekrwjpy, eus10y,
      egold, esilver, ebtc]
  constructor
  · simp only [compute_risk_signal, hrules]
  · have b1 : gold_silver_block (get_item d1 "gold") (get_item d1 "silver")
        = gold_silver_block (get_item d2 "gold") (get_item d2 "silver") := by
      rcases Hgold with ⟨e1, e2⟩ | ⟨a, b, e1, e2, hab⟩ <;>
        rcases Hsilver with ⟨f1, f2⟩ | ⟨c, d, f1, f2, hcd⟩ <;>
        rw [e1, e2, f1, f2] <;> try rfl
      simp only [gold_silver_block, hab.2.2.2.1, hcd.2.2.2.1]
    have b2 : vix_bonds_stocks_block (get_item d1 "vix")
        = vix_bonds_stocks_block (get_item d2 "vix") := by
      rcases Hvix with ⟨e1, e2⟩ | ⟨a, b, e1, e2, hab⟩ <;> rw [e1, e2]
      simp only [vix_bonds_stocks_block, hab.2.2.2.1]
    have b3 : usd_jpy_block (get_item d1 "usdjpy")
        = usd_jpy_block (get_item d2 "usdjpy") := by
      rcases Husdjpy with ⟨e1, e2⟩ | ⟨a, b, e1, e2, hab⟩ <;> rw [e1, e2]
      simp only [usd_jpy_block, hab.2.2.2.1, hab.2.2.2.2.2.1]
    have b4 : spx_ndx_block (get_item d1 "spx") (get_item d1 "ndx")
        = spx_ndx_block (get_item d2 "spx") (get_item d2 "ndx") := by
      rcases Hspx with ⟨e1, e2⟩ | ⟨a, b, e1, e2, hab⟩ <;>
        rcases Hndx with ⟨f1, f2⟩ | ⟨c, d, f1, f2, hcd⟩ <;>
        rw [e1, e2, f1, f2] <;> try rfl
      simp only [spx_ndx_block, hab.2.2.2.2.2.1, hcd.2.2.2.2.2.1]
    simp only [calculate_pair_trading_signals]
    rw [b1, b2, b3, b4]

theorem engines_ignore_status_witness :
    compute_risk_signal status_diff_left = compute_risk_signal status_diff_right ∧
    calculate_pair_trading_signals status_diff_left
      = calculate_pair_trading_signals status_diff_right :=
  engines_ignore_status (List.Forall₂.cons (by decide) List.Forall₂.nil)
